import Mathlib

/-!
Shallow embedding of `charm_refresh/_main.py` (the Kubernetes refresh controller,
class `_Kubernetes` and its helpers).  Python data is modelled as follows:

* strings stay `String`; `None` becomes `Option.none`;
* the peer-relation databag (`self._relation`) becomes a function
  `Nat → Option UnitDatabag` from unit number to that unit's databag
  (`Option.none` models a unit missing from the relation, e.g. during scale up);
* sequences stay `List`; Python `max` over a (possibly empty) iterable becomes
  `pyMax : List _ → Option _` (`Option.none` models the `ValueError` that
  Python's `max` raises on an empty sequence);
* code that can raise an exception returns `Option` (`Option.none` = raise);
* the charm-author callbacks (`is_compatible`,
  `run_pre_refresh_checks_after_1_unit_refreshed`) are oracle inputs carried in
  the state record, with booleans in the result recording whether they were
  invoked.
-/

namespace CharmRefresh

/-- `_PauseAfter` enum (`pause_after_unit_refresh` config option),
`_main.py` lines 492-509.  Members `NONE`, `FIRST`, `ALL`, `UNKNOWN`. -/
inductive PauseAfter
  | NONE
  | FIRST
  | ALL
  | UNKNOWN
deriving DecidableEq, Repr, Fintype

/-- `_PauseAfter(value)`: the enum lookup by value; `_missing_` maps any
unrecognized value to `UNKNOWN`. -/
def PauseAfter.ofString (s : String) : PauseAfter :=
  if s = "none" then PauseAfter.NONE
  else if s = "first" then PauseAfter.FIRST
  else if s = "all" then PauseAfter.ALL
  else PauseAfter.UNKNOWN

/-- The `priorities` dict in `_PauseAfter.__gt__`. -/
def PauseAfter.priority : PauseAfter → Nat
  | PauseAfter.NONE => 0
  | PauseAfter.FIRST => 1
  | PauseAfter.ALL => 2
  | PauseAfter.UNKNOWN => 3

/-- `_PauseAfter.__gt__`: compare by priority. -/
def PauseAfter.gtB (a b : PauseAfter) : Bool :=
  decide (a.priority > b.priority)

/-- One step of Python's `max`: keep the accumulator unless the next item is
strictly greater (`__gt__`). -/
def PauseAfter.max2 (a x : PauseAfter) : PauseAfter :=
  if PauseAfter.gtB x a then x else a

/-- Python `max(iterable)` over `_PauseAfter` values: `Option.none` models the
`ValueError: max() arg is an empty sequence` raised on an empty iterable. -/
def pyMax : List PauseAfter → Option PauseAfter
  | [] => Option.none
  | v :: rest => some (rest.foldl PauseAfter.max2 v)

/-- A Kubernetes unit as seen by the controller: `_KubernetesUnit`
(`_main.py` lines 1540-1556): a unit number plus the
`controller-revision-hash` label of its pod. -/
structure KUnit where
  number : Nat
  controllerRevision : String
deriving DecidableEq, Repr

/-- The cluster-visible per-unit section of the refresh peer relation databag
(the keys read by `_Kubernetes`).  `refreshStartedHashes` models
`refresh_started_if_app_controller_revision_hash_in` (`.get(key, tuple())`
yields the empty sequence when the key is absent, so absence of the key and
the empty list coincide for the reads below). -/
structure UnitDatabag where
  pauseAfterConfig : Option String
  nextUnitAllowedHash : Option String
  refreshStartedHashes : List String
deriving DecidableEq, Repr

/-- The peer relation: unit number ↦ that unit's databag
(`Option.none` = unit missing from the relation). -/
abbrev Relation := Nat → Option UnitDatabag

/-- `self._relation.get(unit, {}).get("refresh_started_if_app_controller_revision_hash_in", tuple())`. -/
def refreshStartedHashesOf (relation : Relation) (unitNumber : Nat) : List String :=
  ((relation unitNumber).map UnitDatabag.refreshStartedHashes).getD []

/-- The loop over `self._units` that appears (with `rev` instantiated to the
app controller revision in `_start_refresh`, lines 1803-1810, and to this
unit's controller revision in `workload_allowed_to_start`, lines 1650-1658):
whether any unit's `refresh_started_if_app_controller_revision_hash_in`
sequence contains `rev`. -/
def anyRefreshStartedContains (units : List KUnit) (relation : Relation) (rev : String) : Bool :=
  units.any fun u => decide (rev ∈ refreshStartedHashesOf relation u.number)

/-- Determination of `self._in_progress` (`_main.py` lines 2258-2264): the
`for`/`else` loop over `self._units` setting `True` iff some unit's controller
revision differs from the app's controller revision. -/
def computeInProgress (units : List KUnit) (appControllerRevision : String) : Bool :=
  units.any fun u => decide (u.controllerRevision ≠ appControllerRevision)

/-- `most_up_to_date_units` (`_main.py` lines 2271-2275): the units whose
controller revision equals `self._units[0].controller_revision`.  The Python
generator never evaluates `self._units[0]` when `self._units` is empty, so the
empty case yields the empty sequence. -/
def mostUpToDateUnits (units : List KUnit) : List KUnit :=
  match units with
  | [] => []
  | u0 :: _ => units.filter fun u => decide (u.controllerRevision = u0.controllerRevision)

/-- `pause_after_values` (`_main.py` lines 2276-2284): the
`pause_after_unit_refresh_config` databag values of the most-up-to-date units,
with missing units/keys (`None`) excluded. -/
def pauseAfterValues (units : List KUnit) (relation : Relation) : List String :=
  (mostUpToDateUnits units).filterMap fun u =>
    (relation u.number).bind UnitDatabag.pauseAfterConfig

/-- `self._pause_after = max(_PauseAfter(value) for value in pause_after_values)`
(`_main.py` line 2285).  `Option.none` models the uncaught `ValueError` that
Python's `max` raises when `pause_after_values` is empty (there is no
`default=` argument in the source). -/
def computePauseAfter (units : List KUnit) (relation : Relation) : Option PauseAfter :=
  pyMax ((pauseAfterValues units relation).map PauseAfter.ofString)

/-- `CharmVersion` (`_main.py` lines 38-108), restricted to the data the
embedded code paths read: `track` (text before the `/`), the three-component
`release` tuple of the PEP 440 version, `released` (whether the input string
equals its PEP 440 base version), and `raw` (`self._version`, the original
string, which `__eq__` and `__str__` use).  `major = release[0]`.  The PEP 440
comparison `__gt__` is only ever reached by `_is_charm_version_compatible`
after both versions are checked to be released (pure base versions), where it
coincides with lexicographic comparison of the release triples; it raises
`ValueError` when the tracks differ. -/
structure CharmVersion where
  track : String
  release : Nat × Nat × Nat
  released : Bool
  raw : String
deriving DecidableEq, Repr

/-- `CharmVersion.major`: first component of the release. -/
def CharmVersion.major (v : CharmVersion) : Nat := v.release.1

/-- Canonical string form `"<track>/<a>.<b>.<c>"` of a released version: a
parsed `CharmVersion` with `released = True` has `raw` equal to this (the
parser requires the input to equal its base version). -/
def showRelease : Nat × Nat × Nat → String
  | (a, b, c) => toString a ++ "." ++ toString b ++ "." ++ toString c

/-- Well-formedness of a `CharmVersion` value as produced by the parser:
a released version's raw string is its canonical form. -/
def CharmVersion.wf (v : CharmVersion) : Prop :=
  v.released = true → v.raw = v.track ++ "/" ++ showRelease v.release

instance (v : CharmVersion) : Decidable v.wf := by
  unfold CharmVersion.wf; infer_instance

/-- Strict lexicographic comparison of release triples: the PEP 440 `__gt__`
restricted to released (base) versions of equal tracks. -/
def releaseGt : Nat × Nat × Nat → Nat × Nat × Nat → Bool
  | (a1, b1, c1), (a2, b2, c2) =>
    decide (a1 > a2) || (decide (a1 = a2) && (decide (b1 > b2) || (decide (b1 = b2) && decide (c1 > c2))))

/-- `CharmSpecific._is_charm_version_compatible` (`_main.py` lines 379-395):
`False` unless both versions are released; `False` if the majors differ;
otherwise `new >= old`, where `functools.total_ordering` derives
`__ge__(new, old)` as `new.__gt__(old) or new.__eq__(old)` — `__gt__` raises
`ValueError` when the tracks differ (modelled as `Option.none`) and `__eq__`
compares the raw version strings. -/
def isCharmVersionCompatible (old new : CharmVersion) : Option Bool :=
  if ¬(old.released = true ∧ new.released = true) then some false
  else if old.major ≠ new.major then some false
  else if old.track ≠ new.track then Option.none
  else some (releaseGt new.release old.release || decide (new.raw = old.raw))

/-- `_OriginalVersions` (`_main.py` lines 1581-1612): versions of all units
immediately after the last completed refresh, as parsed from the app databag
by `from_app_databag` (which raises `ValueError` when keys are missing or
invalid — call sites therefore consume an `Option OriginalVersions`). -/
structure OriginalVersions where
  workload : String
  workloadContainer : String
  charm : CharmVersion
  charmRevision : String
deriving Repr

/-- The app-level section of the peer relation databag: the four
`original_*` keys written by `_OriginalVersions.write_to_app_databag`. -/
structure AppDatabag where
  originalWorkloadVersion : Option String
  originalWorkloadContainerVersion : Option String
  originalCharmVersion : Option String
  originalCharmRevision : Option String
deriving DecidableEq, Repr

/-- `_OriginalVersions.write_to_app_databag` (`_main.py` lines 1608-1612):
sets the four `original_*` keys (`original_charm_version` is `str(self.charm)`,
i.e. the raw version string). -/
def writeToAppDatabag (v : OriginalVersions) (databag : AppDatabag) : AppDatabag :=
  { databag with
    originalWorkloadVersion := some v.workload
    originalWorkloadContainerVersion := some v.workloadContainer
    originalCharmVersion := some v.charm.raw
    originalCharmRevision := some v.charmRevision }

/-- The `OriginalVersions` write step of `_Kubernetes.__init__`
(`_main.py` lines 2287-2303): only when `self._in_progress` is false and this
unit is the leader (`self._relation.my_app` is a `MutableMapping` exactly on
the leader) are the installed/pinned versions saved to the app databag; in
every other case the app databag is left unchanged.  This is the only call
site of `write_to_app_databag` in the module and no other code assigns the
`original_*` keys. -/
def originalVersionsWriteStep (inProgress isLeader : Bool)
    (pinnedWorkloadVersion installedWorkloadContainerVersion : String)
    (installedCharmVersion : CharmVersion) (installedCharmRevisionRaw : String)
    (databag : AppDatabag) : AppDatabag :=
  if inProgress = false ∧ isLeader = true then
    writeToAppDatabag
      { workload := pinnedWorkloadVersion
        workloadContainer := installedWorkloadContainerVersion
        charm := installedCharmVersion
        charmRevision := installedCharmRevisionRaw }
      databag
  else databag

/-- `_Kubernetes.workload_allowed_to_start` (`_main.py` lines 1646-1667):
`True` when no refresh is in progress; otherwise `True` when some unit's
`refresh_started_if_app_controller_revision_hash_in` contains this unit's
controller revision; otherwise `_OriginalVersions.from_app_databag` is read
(`Option.none` argument = it raises) and `True` iff this unit's installed
charm version and workload container digest both equal the original versions;
else `False`. -/
def workloadAllowedToStart (inProgress : Bool) (units : List KUnit) (relation : Relation)
    (unitControllerRevision : String) (originalVersions : Option OriginalVersions)
    (installedCharmVersionRaw installedWorkloadContainerVersion : String) : Option Bool :=
  if inProgress = false then some true
  else if anyRefreshStartedContains units relation unitControllerRevision then some true
  else
    match originalVersions with
    | Option.none => Option.none
    | some ov =>
      if ov.charm.raw = installedCharmVersionRaw ∧
          ov.workloadContainer = installedWorkloadContainerVersion then some true
      else some false

/-- A charm status as set by the embedded code paths
(`charm.BlockedStatus` / `charm.MaintenanceStatus`). -/
inductive Status
  | blocked (message : String)
  | maintenance (message : String)
deriving DecidableEq, Repr

/-- The inner `_ResumeRefreshAction` of `_set_partition_and_app_status`
(`_main.py` lines 1944-1950): a `resume-refresh` action event with its
`check-health-of-refreshed-units` parameter. -/
structure ResumeAction where
  checkHealth : Bool
deriving DecidableEq, Repr

/-- The state read by `_Kubernetes._set_partition_and_app_status`.
`partition` is the current StatefulSet partition returned by
`self._get_partition()`; `action` is `some _` iff the triggering event is a
`resume-refresh` action; `handleAction` is the method's `handle_action`
parameter. -/
structure PartitionState where
  appName : String
  isLeader : Bool
  pauseAfter : PauseAfter
  inProgress : Bool
  units : List KUnit
  appControllerRevision : String
  relation : Relation
  refreshStarted : Bool
  partition : Nat
  action : Option ResumeAction
  handleAction : Bool

/-- The observable effects of one `_set_partition_and_app_status` call.
`partitionWrite` is the value passed to `self._set_partition`, if any;
`finalPartition` is the method's local `partition` variable after the
(possible) write; `allowNext` and `targetPartition` expose the method's
`allow_next_unit_to_refresh` and `target_partition` locals (defaulted to
`false` / the current partition on the early-return paths that never compute
them). -/
structure PartitionOutcome where
  partitionWrite : Option Nat
  finalPartition : Nat
  allowNext : Bool
  targetPartition : Nat
  appStatusHigherPriority : Option Status
  actionFail : Option String
  actionResult : Option String
deriving DecidableEq, Repr

/-- Helper for the loop at `_main.py` lines 1985-1989: walk the units with the
running index; stop at the first unit whose controller revision differs from
the app revision; when no unit differs the loop leaves the last `(index, unit)`
pair in scope; on an empty list the Python code would raise `NameError`
(modelled as `Option.none`). -/
def findNextUnitGo (appRev : String) : Nat → List KUnit → Option (Nat × KUnit)
  | _, [] => Option.none
  | i, [u] => some (i, u)
  | i, u :: v :: rest =>
    if u.controllerRevision ≠ appRev then some (i, u)
    else findNextUnitGo appRev (i + 1) (v :: rest)

/-- `next_unit_to_refresh` / `next_unit_to_refresh_index`
(`_main.py` lines 1985-1989). -/
def findNextUnit (units : List KUnit) (appRev : String) : Option (Nat × KUnit) :=
  findNextUnitGo appRev 0 units

/-- The scan at `_main.py` lines 2006-2020: the first up-to-date unit whose
`next_unit_allowed_to_refresh_if_app_controller_revision_hash_equals` databag
value differs from the app controller revision (`None`, from a unit missing
from the relation during scale up, also differs). -/
def firstUnitNotAllowingNext (upToDateUnits : List KUnit) (relation : Relation)
    (appRev : String) : Option KUnit :=
  upToDateUnits.find? fun u =>
    decide (((relation u.number).bind UnitDatabag.nextUnitAllowedHash) ≠ some appRev)

/-- The `allow_next_unit_to_refresh` decision block of
`_set_partition_and_app_status` (`_main.py` lines 1991-2045), over the action
`action1` left after the "not applicable" guard.  Returns
`(allow_next_unit_to_refresh, action fail message, action result message)`.
`u0` is `self._units[0]`, `nextUnit` / `idx` are `next_unit_to_refresh` and
its index. -/
def allowNextUnitDecision (handleAction : Bool) (action1 : Option ResumeAction)
    (refreshStarted : Bool) (units : List KUnit) (relation : Relation) (appRev : String)
    (pauseAfter : PauseAfter) (u0 nextUnit : KUnit) (idx : Nat) :
    Bool × Option String × Option String :=
  let checkHealth1 : Bool :=
    match action1 with | some a => a.checkHealth | Option.none => true
  if action1.isSome && !checkHealth1 then
    (true, Option.none,
      if handleAction then
        some ("Attempting to refresh unit " ++ toString nextUnit.number)
      else Option.none)
  else if refreshStarted = false then
    (false,
      if handleAction ∧ action1.isSome then
        some ("Unit " ++ toString u0.number ++ " is unhealthy. Refresh will not resume.")
      else Option.none,
      Option.none)
  else
    match firstUnitNotAllowingNext (units.take idx) relation appRev with
    | some u =>
      (false,
        if handleAction ∧ action1.isSome then
          some ("Unit " ++ toString u.number ++ " is unhealthy. Refresh will not resume.")
        else Option.none,
        Option.none)
    | Option.none =>
      if action1.isSome || decide (pauseAfter = PauseAfter.NONE) ||
          (decide (pauseAfter = PauseAfter.FIRST) && decide (idx ≥ 2)) then
        (true, Option.none,
          if handleAction ∧ action1.isSome then
            if pauseAfter = PauseAfter.FIRST then
              some ("Refresh resumed. Unit " ++ toString nextUnit.number ++
                " is refreshing next")
            else
              some ("Unit " ++ toString nextUnit.number ++ " is refreshing next")
          else Option.none)
      else
        (false, Option.none, Option.none)

/-- `_Kubernetes._set_partition_and_app_status` (`_main.py` lines 1931-2076),
as a pure function from the state it reads to its observable effects.
`Option.none` models the `NameError` that the Python code would raise if
`self._units` were empty on the in-progress path (unreachable in practice:
this unit's own pod is always listed). -/
def setPartitionAndAppStatus (s : PartitionState) : Option PartitionOutcome :=
  if s.isLeader = false then
    some { partitionWrite := Option.none, finalPartition := s.partition, allowNext := false
           targetPartition := s.partition
           appStatusHigherPriority := Option.none
           actionFail :=
             if s.handleAction ∧ s.action.isSome then
               some ("Must run action on leader unit. (e.g. `juju run " ++ s.appName ++
                 "/leader resume-refresh`)")
             else Option.none
           actionResult := Option.none }
  else
    let pauseStatus : Option Status :=
      if s.pauseAfter = PauseAfter.UNKNOWN then
        some (Status.blocked
          "pause_after_unit_refresh config must be set to \"all\", \"first\", or \"none\"")
      else Option.none
    if s.inProgress = false then
      some { partitionWrite := some 0, finalPartition := 0, allowNext := false
             targetPartition := 0
             appStatusHigherPriority := pauseStatus
             actionFail :=
               if s.handleAction ∧ s.action.isSome then some "No refresh in progress"
               else Option.none
             actionResult := Option.none }
    else
      -- resume-refresh "not applicable" guard (`_main.py` lines 1973-1983)
      let nullify : Bool := s.handleAction && s.action.isSome &&
        decide (s.pauseAfter = PauseAfter.NONE) &&
        (match s.action with | some a => a.checkHealth | Option.none => false)
      let action1 : Option ResumeAction := if nullify then Option.none else s.action
      let nullifyFail : Option String :=
        if nullify then
          some "`pause_after_unit_refresh` config is set to `none`. This action is not applicable."
        else Option.none
      match s.units with
      | [] => Option.none
      | u0 :: rest =>
        match findNextUnit (u0 :: rest) s.appControllerRevision with
        | Option.none => Option.none
        | some (idx, nextUnit) =>
          -- `allow_next_unit_to_refresh` with the action fail/result it emits
          -- (`_main.py` lines 1991-2045)
          let decision : Bool × Option String × Option String :=
            allowNextUnitDecision s.handleAction action1 s.refreshStarted (u0 :: rest)
              s.relation s.appControllerRevision s.pauseAfter u0 nextUnit idx
          let allow : Bool := decision.1
          -- `target_partition` (`_main.py` lines 2047-2051); the `getD` default
          -- is never reached since `max (idx - 1) 0 ≤ idx < length`
          let targetPartition : Nat :=
            if allow then nextUnit.number
            else ((((u0 :: rest).get? (max (idx - 1) 0)).getD nextUnit).number)
          -- only lower the partition, never raise it (`_main.py` lines 2052-2061)
          let partitionWrite : Option Nat :=
            if targetPartition < s.partition then some targetPartition else Option.none
          let finalPartition : Nat :=
            if targetPartition < s.partition then targetPartition else s.partition
          -- in-progress app status (`_main.py` lines 2063-2076); note that this
          -- overwrites the UNKNOWN-config blocked status computed above
          let appStatus : Status :=
            if s.pauseAfter = PauseAfter.ALL ∨
                (s.pauseAfter = PauseAfter.FIRST ∧ finalPartition ≥ u0.number) then
              Status.blocked ("Refreshing. Check units >=" ++ toString finalPartition ++
                " are healthy & run `resume-refresh` on leader. To rollback, see docs or `juju debug-log`")
            else
              Status.maintenance ("Refreshing. To pause refresh, run `juju config " ++
                s.appName ++ " pause_after_unit_refresh=all`")
          some { partitionWrite := partitionWrite, finalPartition := finalPartition
                 allowNext := allow, targetPartition := targetPartition
                 appStatusHigherPriority := some appStatus
                 actionFail := nullifyFail <|> decision.2.1
                 actionResult := decision.2.2 }

/-- The value passed to `self._set_partition` by one
`_set_partition_and_app_status` call, if any. -/
def writtenPartition (s : PartitionState) : Option Nat :=
  (setPartitionAndAppStatus s).bind PartitionOutcome.partitionWrite

/-- The stop-event guard in the `_Kubernetes.__init__` entry path
(`_main.py` lines 2117-2132): on a stop event, when the local
`kubernetes_unit_tearing_down` marker file does not exist and the current
partition is below this unit's number, the partition is raised to this unit's
number; in every other case nothing is written.  Together with the two
`_set_partition` calls inside `_set_partition_and_app_status` these are the
only `_set_partition` call sites in the module. -/
def stopEventGuardWrite (isStopEvent tearingDownFileExists : Bool)
    (partition unitNumber : Nat) : Option Nat :=
  if isStopEvent = true ∧ tearingDownFileExists = false ∧ partition < unitNumber then
    some unitNumber
  else Option.none

/-- Parameters of a `force-refresh-start` action event. -/
structure ForceParams where
  checkWorkloadContainer : Bool
  checkCompatibility : Bool
  runPreRefreshChecks : Bool
deriving DecidableEq, Repr

/-- The state read by `_Kubernetes._start_refresh`.  `isCompatible` is the
charm-author-supplied `CharmSpecific.is_compatible` callback;
`precheckFailure` is the outcome of the charm-author-supplied
`run_pre_refresh_checks_after_1_unit_refreshed` hook (`some message` models it
raising `PrecheckFailed(message)`); `forceEvent` is `some _` iff the
triggering event is a `force-refresh-start` action. -/
structure StartRefreshState where
  appName : String
  workloadName : String
  ociResourceName : String
  inProgress : Bool
  units : List KUnit
  thisUnitNumber : Nat
  appControllerRevision : String
  unitControllerRevision : String
  relation : Relation
  originalVersions : Option OriginalVersions
  installedCharmVersion : CharmVersion
  installedWorkloadImageName : String
  installedWorkloadContainerVersion : String
  pinnedWorkloadContainerVersion : String
  pinnedWorkloadVersion : String
  isCompatible : CharmVersion → CharmVersion → String → String → Bool
  precheckFailure : Option String
  forceEvent : Option ForceParams

/-- The observable effects of one `_start_refresh` call.  `refreshStarted` is
`self._refresh_started` afterwards; `markerTouched` records whether the local
`kubernetes_refresh_started` marker file was touched in this call;
`ownHashes` is this unit's
`refresh_started_if_app_controller_revision_hash_in` databag sequence
afterwards; the `ran*` booleans record which of the three checks (and the two
charm-author callbacks) were actually invoked. -/
structure StartRefreshResult where
  refreshStarted : Bool
  markerTouched : Bool
  ownHashes : List String
  unitStatusHigherPriority : Option Status
  ranWorkloadContainerCheck : Bool
  ranCompatibilityCheck : Bool
  ranPreRefreshChecks : Bool
  forceFail : Option String
  forceResult : Option String
deriving Repr

/-- The inner `_ForceRefreshStartAction` validation of `_start_refresh`
(`_main.py` lines 1760-1799): on a wrong unit the event is failed but parsing
continues (no raise); without a refresh in progress, or with all three check
parameters left `true`, the event is failed and the action is discarded.
Returns the validated action (if any) and the first `event.fail` message. -/
def validateForce (forceEvent : Option ForceParams) (thisUnitNumber firstUnitNumber : Nat)
    (inProgress : Bool) : Option ForceParams × Option String :=
  match forceEvent with
  | Option.none => (Option.none, Option.none)
  | some p =>
    let wrongUnitFail : Option String :=
      if thisUnitNumber ≠ firstUnitNumber then
        some ("Must run action on unit " ++ toString firstUnitNumber)
      else Option.none
    if inProgress = false then
      (Option.none, wrongUnitFail <|> some "No refresh in progress")
    else if p.checkWorkloadContainer = true ∧ p.checkCompatibility = true ∧
        p.runPreRefreshChecks = true then
      (Option.none, wrongUnitFail <|>
        some "Must run with at least one of `check-compatibility`, `run-pre-refresh-checks`, or `check-workload-container` parameters `=false`")
    else (some p, wrongUnitFail)

/-- `hashes.append(...)` guarded by `if ... not in hashes`
(`_main.py` lines 1825-1829 and 1920-1924). -/
def appendIfAbsent (hashes : List String) (rev : String) : List String :=
  if rev ∈ hashes then hashes else hashes ++ [rev]

/-- `original_versions.charm_revision.split("-")[-1]` (`_main.py` line 1837). -/
def lastSplitOnDash (str : String) : String :=
  (str.splitOn "-").getLastD str

/-- Whether a gate of `_start_refresh` is skipped: a validated
`force-refresh-start` action is present and its matching check parameter is
`false`. -/
def skipFlag (force : Option ForceParams) (param : ForceParams → Bool) : Bool :=
  match force with
  | some p => !(param p)
  | Option.none => false

/-- The three-gate check section of `_start_refresh`
(`_main.py` lines 1836-1929), reached on the first unit to refresh when the
refresh is in progress, not yet started, and not a rollback.  Each gate is
skipped exactly when a validated `force-refresh-start` action has the matching
parameter `false`; a failed gate sets a blocked unit status, fails the action
if present, and returns without marking the refresh started; after all gates
that ran succeed, the local marker is touched and this unit's controller
revision is added to its `refresh_started_if_app_controller_revision_hash_in`
databag sequence. -/
def runChecks (s : StartRefreshState) (force : Option ForceParams) (ov : OriginalVersions)
    (vFail : Option String) (ownHashes0 : List String) : StartRefreshResult :=
  let rollbackCommand : String :=
    "juju refresh " ++ s.appName ++ " --revision " ++ lastSplitOnDash ov.charmRevision ++
    " --resource " ++ s.ociResourceName ++ "=" ++ s.installedWorkloadImageName ++ "@" ++
    ov.workloadContainer
  let skip1 : Bool := skipFlag force ForceParams.checkWorkloadContainer
  let pass1 : Bool :=
    decide (s.installedWorkloadContainerVersion = s.pinnedWorkloadContainerVersion)
  if !skip1 && !pass1 then
    { refreshStarted := false, markerTouched := false, ownHashes := ownHashes0
      unitStatusHigherPriority := some (Status.blocked
        "`juju refresh` was run with missing/incorrect OCI resource. Rollback with instructions in docs or see `juju debug-log`")
      ranWorkloadContainerCheck := true, ranCompatibilityCheck := false
      ranPreRefreshChecks := false
      forceFail := vFail <|> (force.map fun _ =>
        "Refresh is to " ++ s.workloadName ++
        " container version that has not been validated to work with the charm revision. Rollback by running `" ++
        rollbackCommand ++ "`")
      forceResult := Option.none }
  else
    let skip2 : Bool := skipFlag force ForceParams.checkCompatibility
    let pass2 : Bool :=
      s.isCompatible ov.charm s.installedCharmVersion ov.workload s.pinnedWorkloadVersion
    if !skip2 && !pass2 then
      { refreshStarted := false, markerTouched := false, ownHashes := ownHashes0
        unitStatusHigherPriority := some (Status.blocked
          "Refresh incompatible. Rollback with instructions in Charmhub docs or see `juju debug-log`")
        ranWorkloadContainerCheck := !skip1, ranCompatibilityCheck := true
        ranPreRefreshChecks := false
        forceFail := vFail <|> (force.map fun _ =>
          "Refresh incompatible. Rollback by running `" ++ rollbackCommand ++ "`")
        forceResult := Option.none }
    else
      let skip3 : Bool := skipFlag force ForceParams.runPreRefreshChecks
      match (if skip3 then Option.none else s.precheckFailure) with
      | some msg =>
        { refreshStarted := false, markerTouched := false, ownHashes := ownHashes0
          unitStatusHigherPriority := some (Status.blocked
            ("Rollback with `juju refresh`. Pre-refresh check failed: " ++ msg))
          ranWorkloadContainerCheck := !skip1, ranCompatibilityCheck := !skip2
          ranPreRefreshChecks := true
          forceFail := vFail <|> (force.map fun _ =>
            "Pre-refresh check failed: " ++ msg ++ ". Rollback by running `" ++
            rollbackCommand ++ "`")
          forceResult := Option.none }
      | Option.none =>
        { refreshStarted := true, markerTouched := true
          ownHashes := appendIfAbsent ownHashes0 s.unitControllerRevision
          unitStatusHigherPriority := Option.none
          ranWorkloadContainerCheck := !skip1, ranCompatibilityCheck := !skip2
          ranPreRefreshChecks := !skip3
          forceFail := vFail
          forceResult := force.map fun _ =>
            s.workloadName ++ " refreshed on unit " ++ toString s.thisUnitNumber ++
            ". Starting " ++ s.workloadName ++ " on unit " ++ toString s.thisUnitNumber }

/-- `_Kubernetes._start_refresh` (`_main.py` lines 1746-1929) as a pure
function.  `Option.none` models an uncaught exception: `IndexError` on
`self._units[0]` when the unit list is empty, or the `ValueError` raised by
`_OriginalVersions.from_app_databag` when the app databag is missing or
invalid (modelled by `originalVersions = Option.none`). -/
def startRefresh (s : StartRefreshState) : Option StartRefreshResult :=
  match s.units with
  | [] => Option.none
  | u0 :: _ =>
    let validated := validateForce s.forceEvent s.thisUnitNumber u0.number s.inProgress
    let force := validated.1
    let vFail := validated.2
    let ownHashes0 := refreshStartedHashesOf s.relation s.thisUnitNumber
    if s.inProgress = false then
      some { refreshStarted := false, markerTouched := false, ownHashes := ownHashes0
             unitStatusHigherPriority := Option.none
             ranWorkloadContainerCheck := false, ranCompatibilityCheck := false
             ranPreRefreshChecks := false
             forceFail := vFail, forceResult := Option.none }
    else
      let refreshStarted0 :=
        anyRefreshStartedContains s.units s.relation s.appControllerRevision
      if s.thisUnitNumber ≠ u0.number then
        some { refreshStarted := refreshStarted0, markerTouched := false
               ownHashes := ownHashes0
               unitStatusHigherPriority := Option.none
               ranWorkloadContainerCheck := false, ranCompatibilityCheck := false
               ranPreRefreshChecks := false
               forceFail := vFail, forceResult := Option.none }
      else if refreshStarted0 then
        some { refreshStarted := true, markerTouched := false, ownHashes := ownHashes0
               unitStatusHigherPriority := Option.none
               ranWorkloadContainerCheck := false, ranCompatibilityCheck := false
               ranPreRefreshChecks := false
               forceFail := vFail <|> (force.map fun _ => "refresh already started")
               forceResult := Option.none }
      else
        match s.originalVersions with
        | Option.none => Option.none
        | some ov =>
          if ov.charm.raw = s.installedCharmVersion.raw ∧
              ov.workloadContainer = s.installedWorkloadContainerVersion then
            -- rollback fast path (`_main.py` lines 1816-1830), then the
            -- `if self._refresh_started:` block fails a force action and returns
            some { refreshStarted := true, markerTouched := true
                   ownHashes := appendIfAbsent ownHashes0 s.unitControllerRevision
                   unitStatusHigherPriority := Option.none
                   ranWorkloadContainerCheck := false, ranCompatibilityCheck := false
                   ranPreRefreshChecks := false
                   forceFail := vFail <|> (force.map fun _ => "refresh already started")
                   forceResult := Option.none }
          else
            some (runChecks s force ov vFail ownHashes0)

/-- From the spec (section 4.6 PartitionController): the index of
`next_unit_to_refresh`, "the first (highest-ordinal) unit whose controller
revision differs from the app revision", in the descending unit order.
Stated from the spec's words for comparison with `findNextUnit`. -/
def specNextUnitIndex (units : List KUnit) (appRev : String) : Nat :=
  units.findIdx fun u => decide (u.controllerRevision ≠ appRev)

/-- The spec's decision table for `allow_next_unit_to_refresh` (section 4.6),
stated from the spec's words, over the original (pre-consumption) action:
a `resume-refresh` with `check-health-of-refreshed-units=false` allows;
a refresh not marked started denies; an up-to-date unit above
`next_unit_to_refresh` without `next_unit_allowed` for the current revision
denies; otherwise allow iff `pause_after = NONE`, or `pause_after = FIRST`
with `next_unit_to_refresh_index ≥ 2`, or a `resume-refresh` action is
driving this event. -/
def specAllowNextUnit (action : Option ResumeAction) (refreshStarted : Bool)
    (units : List KUnit) (relation : Relation) (appRev : String)
    (pauseAfter : PauseAfter) : Bool :=
  if (match action with | some a => !a.checkHealth | Option.none => false) then true
  else if !refreshStarted then false
  else if (units.take (specNextUnitIndex units appRev)).any (fun u =>
      decide (((relation u.number).bind UnitDatabag.nextUnitAllowedHash) ≠ some appRev)) then
    false
  else
    decide (pauseAfter = PauseAfter.NONE) ||
      (decide (pauseAfter = PauseAfter.FIRST) &&
        decide (specNextUnitIndex units appRev ≥ 2)) ||
      action.isSome

/-- The spec's target partition (section 4.6), stated from the spec's words:
if allowed, `next_unit_to_refresh`'s ordinal; if denied, the ordinal of the
unit immediately above `next_unit_to_refresh` (index floored at 0). -/
def specTargetPartition (allowed : Bool) (units : List KUnit) (appRev : String) : Option Nat :=
  let idx := specNextUnitIndex units appRev
  if allowed then (units.get? idx).map KUnit.number
  else (units.get? (max (idx - 1) 0)).map KUnit.number

/-- Example charm version `"14/1.2.0"` (released). -/
def exCharmVersion : CharmVersion :=
  { track := "14", release := (1, 2, 0), released := true, raw := "14/1.2.0" }

/-- Example charm version `"14/1.3.0"` (released). -/
def exCharmVersionNew : CharmVersion :=
  { track := "14", release := (1, 3, 0), released := true, raw := "14/1.3.0" }

/-- Example peer relation: only unit 0 is present; it has reported its
`pause_after_unit_refresh_config`. -/
def exRelation : Relation := fun n =>
  if n = 0 then
    some { pauseAfterConfig := some "all", nextUnitAllowedHash := Option.none
           refreshStartedHashes := [] }
  else Option.none

/-- Units for the C6 counterexample: unit 1's pod already carries controller
revision "B" (= `units[0]`'s revision) but unit 1 has not joined the peer
relation (scale up); this unit (unit 0, still on revision "A") has reported
its config, but is not among the most-up-to-date units. -/
def exUnitsC6 : List KUnit :=
  [{ number := 1, controllerRevision := "B" }, { number := 0, controllerRevision := "A" }]

/-- A concrete `PartitionState` with no refresh in progress (leader resets the
partition to 0). -/
def exPartitionStateIdle : PartitionState :=
  { appName := "postgresql-k8s", isLeader := true, pauseAfter := PauseAfter.NONE
    inProgress := false
    units := [{ number := 0, controllerRevision := "A" }]
    appControllerRevision := "A", relation := exRelation, refreshStarted := true
    partition := 5, action := Option.none, handleAction := true }

/-- A concrete in-progress `PartitionState`: two units, unit 1 not yet
refreshed, refresh started, `pause_after = all`, no action. -/
def exPartitionStateBusy : PartitionState :=
  { appName := "postgresql-k8s", isLeader := true, pauseAfter := PauseAfter.ALL
    inProgress := true
    units := [{ number := 1, controllerRevision := "A" }, { number := 0, controllerRevision := "B" }]
    appControllerRevision := "B", relation := exRelation, refreshStarted := true
    partition := 2, action := Option.none, handleAction := true }

/-- A concrete `StartRefreshState` on the first unit to refresh, refresh in
progress and not yet started, where the installed charm version and workload
container digest equal `OriginalVersions` (a rollback).  The compatibility
callback answers `false` and the pre-refresh hook would fail — neither may be
consulted on the rollback fast path. -/
def exStartRollback : StartRefreshState :=
  { appName := "postgresql-k8s", workloadName := "PostgreSQL"
    ociResourceName := "postgresql-image", inProgress := true
    units := [{ number := 0, controllerRevision := "B" }]
    thisUnitNumber := 0, appControllerRevision := "A", unitControllerRevision := "B"
    relation := exRelation
    originalVersions := some
      { workload := "14.11", workloadContainer := "sha256:aaa", charm := exCharmVersion
        charmRevision := "ch:amd64/jammy/postgresql-k8s-381" }
    installedCharmVersion := exCharmVersion
    installedWorkloadImageName := "registry.example.com/postgresql-image"
    installedWorkloadContainerVersion := "sha256:aaa"
    pinnedWorkloadContainerVersion := "sha256:aaa"
    pinnedWorkloadVersion := "14.11"
    isCompatible := fun _ _ _ _ => false
    precheckFailure := some "Backup in progress"
    forceEvent := Option.none }

/-- A concrete `StartRefreshState` on the normal (non-rollback) path: the
installed container digest matches the pin, the compatibility callback
answers `true`, the pre-refresh hook succeeds, no force action. -/
def exStartNormal : StartRefreshState :=
  { appName := "postgresql-k8s", workloadName := "PostgreSQL"
    ociResourceName := "postgresql-image", inProgress := true
    units := [{ number := 0, controllerRevision := "B" }]
    thisUnitNumber := 0, appControllerRevision := "A", unitControllerRevision := "B"
    relation := exRelation
    originalVersions := some
      { workload := "14.10", workloadContainer := "sha256:old", charm := exCharmVersion
        charmRevision := "ch:amd64/jammy/postgresql-k8s-381" }
    installedCharmVersion := exCharmVersionNew
    installedWorkloadImageName := "registry.example.com/postgresql-image"
    installedWorkloadContainerVersion := "sha256:aaa"
    pinnedWorkloadContainerVersion := "sha256:aaa"
    pinnedWorkloadVersion := "14.11"
    isCompatible := fun _ _ _ _ => true
    precheckFailure := Option.none
    forceEvent := Option.none }

/-- An empty app databag (pre-v3 deploy). -/
def exAppDatabagEmpty : AppDatabag :=
  { originalWorkloadVersion := Option.none, originalWorkloadContainerVersion := Option.none
    originalCharmVersion := Option.none, originalCharmRevision := Option.none }

lemma max2_cases (a x : PauseAfter) :
    PauseAfter.max2 a x = a ∨ PauseAfter.max2 a x = x := by
  unfold PauseAfter.max2
  split
  · right; rfl
  · left; rfl

lemma priority_le_max2_left (a x : PauseAfter) :
    a.priority ≤ (PauseAfter.max2 a x).priority := by
  revert a x; decide

lemma priority_le_max2_right (a x : PauseAfter) :
    x.priority ≤ (PauseAfter.max2 a x).priority := by
  revert a x; decide

lemma foldl_max2_mem (l : List PauseAfter) (a : PauseAfter) :
    l.foldl PauseAfter.max2 a = a ∨ l.foldl PauseAfter.max2 a ∈ l := by
  induction l generalizing a with
  | nil => simp
  | cons x t ih =>
    simp only [List.foldl_cons]
    rcases ih (PauseAfter.max2 a x) with h | h
    · rcases max2_cases a x with h2 | h2
      · left; rw [h, h2]
      · right; rw [h, h2]; exact List.mem_cons_self _ _
    · right; exact List.mem_cons_of_mem _ h

lemma foldl_max2_ge_init (l : List PauseAfter) (a : PauseAfter) :
    a.priority ≤ (l.foldl PauseAfter.max2 a).priority := by
  induction l generalizing a with
  | nil => simp
  | cons x t ih =>
    simp only [List.foldl_cons]
    exact le_trans (priority_le_max2_left a x) (ih _)

lemma foldl_max2_ge (l : List PauseAfter) (a v : PauseAfter) (hv : v ∈ l) :
    v.priority ≤ (l.foldl PauseAfter.max2 a).priority := by
  induction l generalizing a with
  | nil => simp at hv
  | cons x t ih =>
    simp only [List.foldl_cons]
    rcases List.mem_cons.mp hv with rfl | h
    · exact le_trans (priority_le_max2_right a v) (foldl_max2_ge_init t _)
    · exact ih _ h

lemma pyMax_eq_none_iff (l : List PauseAfter) : pyMax l = Option.none ↔ l = [] := by
  cases l <;> simp [pyMax]

lemma pyMax_mem (l : List PauseAfter) (p : PauseAfter) (h : pyMax l = some p) :
    p ∈ l := by
  cases l with
  | nil => simp [pyMax] at h
  | cons v t =>
    simp only [pyMax, Option.some.injEq] at h
    rcases foldl_max2_mem t v with h2 | h2
    · rw [← h, h2]; exact List.mem_cons_self _ _
    · rw [← h]; exact List.mem_cons_of_mem _ h2

lemma pyMax_ge (l : List PauseAfter) (p : PauseAfter) (h : pyMax l = some p) :
    ∀ v ∈ l, v.priority ≤ p.priority := by
  cases l with
  | nil => simp [pyMax] at h
  | cons w t =>
    simp only [pyMax, Option.some.injEq] at h
    intro v hv
    rcases List.mem_cons.mp hv with rfl | h2
    · rw [← h]; exact foldl_max2_ge_init t v
    · rw [← h]; exact foldl_max2_ge t w v h2

/-- Claim C9: the `_PauseAfter` ordering is the total order
`NONE < FIRST < ALL < UNKNOWN`; the binary max (one comparison step of
Python's `max`) is commutative and associative; `UNKNOWN` dominates, both
for the binary max and for the max of any non-empty sequence containing
`UNKNOWN`. -/
theorem claim_C9 :
    (PauseAfter.gtB PauseAfter.FIRST PauseAfter.NONE = true ∧
      PauseAfter.gtB PauseAfter.ALL PauseAfter.FIRST = true ∧
      PauseAfter.gtB PauseAfter.UNKNOWN PauseAfter.ALL = true) ∧
    (∀ a b : PauseAfter, a = b ∨ PauseAfter.gtB a b = true ∨ PauseAfter.gtB b a = true) ∧
    (∀ a b : PauseAfter, PauseAfter.max2 a b = PauseAfter.max2 b a) ∧
    (∀ a b c : PauseAfter,
      PauseAfter.max2 (PauseAfter.max2 a b) c = PauseAfter.max2 a (PauseAfter.max2 b c)) ∧
    (∀ a : PauseAfter, PauseAfter.max2 a PauseAfter.UNKNOWN = PauseAfter.UNKNOWN ∧
      PauseAfter.max2 PauseAfter.UNKNOWN a = PauseAfter.UNKNOWN) ∧
    (∀ l : List PauseAfter, PauseAfter.UNKNOWN ∈ l → pyMax l = some PauseAfter.UNKNOWN) := by
  refine ⟨by decide, by decide, by decide, by decide, by decide, ?_⟩
  intro l hl
  cases hp : pyMax l with
  | none =>
    rw [pyMax_eq_none_iff] at hp
    subst hp
    simp at hl
  | some p =>
    have h3 := pyMax_ge l p hp PauseAfter.UNKNOWN hl
    have hpu : p = PauseAfter.UNKNOWN := by revert h3; cases p <;> decide
    exact congrArg some hpu

theorem claim_C9_witness :
    pyMax [PauseAfter.NONE, PauseAfter.UNKNOWN] = some PauseAfter.UNKNOWN :=
  claim_C9.2.2.2.2.2 [PauseAfter.NONE, PauseAfter.UNKNOWN] (by simp)

/-- Claim C6 (amended): the effective `pause_after` is a maximum of the
reported `pause_after_unit_refresh_config` preferences of the most-up-to-date
units (those with `units[0]`'s controller revision), with missing preferences
excluded; but when no preferences are present at all the computation raises
an uncaught `ValueError` (Python `max` of an empty sequence) instead of using
`UNKNOWN`. -/
theorem claim_C6 (units : List KUnit) (relation : Relation) :
    (computePauseAfter units relation = Option.none ↔
      pauseAfterValues units relation = []) ∧
    (∀ p, computePauseAfter units relation = some p →
      p ∈ (pauseAfterValues units relation).map PauseAfter.ofString ∧
      ∀ v ∈ (pauseAfterValues units relation).map PauseAfter.ofString,
        v.priority ≤ p.priority) := by
  constructor
  · unfold computePauseAfter
    rw [pyMax_eq_none_iff]
    simp
  · intro p hp
    exact ⟨pyMax_mem _ p hp, pyMax_ge _ p hp⟩

theorem claim_C6_witness :
    PauseAfter.ALL ∈
      (pauseAfterValues [{ number := 0, controllerRevision := "A" }] exRelation).map
        PauseAfter.ofString :=
  ((claim_C6 [{ number := 0, controllerRevision := "A" }] exRelation).2
    PauseAfter.ALL (by rfl)).1

/-- Claim C6 counterexample: in a snapshot where every most-up-to-date unit is
missing from the peer relation (here unit 1, revision "B", is most up-to-date
but absent; this unit, unit 0, has reported its preference but is on revision
"A"), the computation yields no value at all — the Python code raises
`ValueError` — rather than the claimed `UNKNOWN`. -/
theorem claim_C6_counterexample :
    computePauseAfter exUnitsC6 exRelation = Option.none ∧
    computePauseAfter exUnitsC6 exRelation ≠ some PauseAfter.UNKNOWN := by
  constructor
  · rfl
  · intro h
    rw [show computePauseAfter exUnitsC6 exRelation = Option.none from rfl] at h
    exact Option.noConfusion h

/-- Claim C7: `in_progress` is true iff some unit's controller revision differs
from the app's controller revision (the StatefulSet update revision). -/
theorem claim_C7 (units : List KUnit) (appControllerRevision : String) :
    computeInProgress units appControllerRevision = true ↔
      ∃ u ∈ units, u.controllerRevision ≠ appControllerRevision := by
  unfold computeInProgress
  simp [List.any_eq_true]

theorem claim_C7_witness :
    computeInProgress exUnitsC6 "B" = true ↔
      ∃ u ∈ exUnitsC6, u.controllerRevision ≠ "B" :=
  claim_C7 exUnitsC6 "B"

/-- Claim C8: the baseline compatibility predicate
`_is_charm_version_compatible` returns false unless both versions are released
with equal major; when both are released with equal major on the same track
(cross-track comparison is the `ValueError` case), it returns true iff
`new ≥ old`, i.e. lexicographic `≥` of the release triples (the hypothesis
that raw-string equality coincides with release-tuple equality holds for all
parser-produced released versions of one track, whose raw string is the
canonical rendering of the release). -/
theorem claim_C8 :
    (∀ old new : CharmVersion, ¬(old.released = true ∧ new.released = true) →
      isCharmVersionCompatible old new = some false) ∧
    (∀ old new : CharmVersion, old.released = true → new.released = true →
      old.major ≠ new.major → isCharmVersionCompatible old new = some false) ∧
    (∀ old new : CharmVersion, old.released = true → new.released = true →
      old.major = new.major → old.track = new.track →
      ((new.raw = old.raw) ↔ (new.release = old.release)) →
      isCharmVersionCompatible old new =
        some (releaseGt new.release old.release || decide (new.release = old.release))) := by
  refine ⟨?_, ?_, ?_⟩
  · intro old new h
    unfold isCharmVersionCompatible
    rw [if_pos h]
  · intro old new h1 h2 h3
    unfold isCharmVersionCompatible
    rw [if_neg (not_not_intro ⟨h1, h2⟩), if_pos h3]
  · intro old new h1 h2 h3 h4 h5
    unfold isCharmVersionCompatible
    rw [if_neg (not_not_intro ⟨h1, h2⟩), if_neg (not_not_intro h3),
      if_neg (not_not_intro h4)]
    congr 2
    exact decide_eq_decide.mpr h5

theorem claim_C8_witness :
    isCharmVersionCompatible exCharmVersion exCharmVersionNew =
      some (releaseGt exCharmVersionNew.release exCharmVersion.release ||
        decide (exCharmVersionNew.release = exCharmVersion.release)) :=
  claim_C8.2.2 exCharmVersion exCharmVersionNew rfl rfl rfl rfl (by decide)

/-- Claim C10: `workload_allowed_to_start` returns true whenever no refresh is
in progress; during а refresh (and with parseable `OriginalVersions`) it
returns `some unit recorded this unit's controller revision as
refresh-started, OR this unit's installed charm version and container digest
both equal the original versions` — true in exactly those cases and false
otherwise. -/
theorem claim_C10 :
    (∀ (units : List KUnit) (relation : Relation) (rev : String)
        (ovs : Option OriginalVersions) (icr iwc : String),
      workloadAllowedToStart false units relation rev ovs icr iwc = some true) ∧
    (∀ (units : List KUnit) (relation : Relation) (rev : String)
        (ov : OriginalVersions) (icr iwc : String),
      workloadAllowedToStart true units relation rev (some ov) icr iwc =
        some (anyRefreshStartedContains units relation rev ||
          (decide (ov.charm.raw = icr) && decide (ov.workloadContainer = iwc)))) := by
  constructor
  · intro units relation rev ovs icr iwc
    rfl
  · intro units relation rev ov icr iwc
    by_cases hA : anyRefreshStartedContains units relation rev = true
    · simp [workloadAllowedToStart, hA]
    · by_cases h1 : ov.charm.raw = icr
      · by_cases h2 : ov.workloadContainer = iwc
        · simp [workloadAllowedToStart, hA, h1, h2]
        · simp [workloadAllowedToStart, hA, h1, h2]
      · simp [workloadAllowedToStart, hA, h1]

theorem claim_C10_witness :
    workloadAllowedToStart false [] exRelation "B" Option.none "x" "y" = some true :=
  claim_C10.1 [] exRelation "B" Option.none "x" "y"

/-- Claim C3: the `OriginalVersions` write step of the controller leaves the
app databag untouched whenever a refresh is in progress or this unit is not
the leader; after a leader invocation with `in_progress = false` the app
databag holds exactly the tuple (pinned workload version, installed workload
container digest, installed charm version, installed charm revision raw). -/
theorem claim_C3 :
    (∀ (inProgress isLeader : Bool) (pw iwc : String) (icv : CharmVersion)
        (icr : String) (databag : AppDatabag),
      (inProgress = true ∨ isLeader = false) →
      originalVersionsWriteStep inProgress isLeader pw iwc icv icr databag = databag) ∧
    (∀ (pw iwc : String) (icv : CharmVersion) (icr : String) (databag : AppDatabag),
      (originalVersionsWriteStep false true pw iwc icv icr databag).originalWorkloadVersion
          = some pw ∧
      (originalVersionsWriteStep false true pw iwc icv icr
          databag).originalWorkloadContainerVersion = some iwc ∧
      (originalVersionsWriteStep false true pw iwc icv icr databag).originalCharmVersion
          = some icv.raw ∧
      (originalVersionsWriteStep false true pw iwc icv icr databag).originalCharmRevision
          = some icr) := by
  constructor
  · intro inP isL pw iwc icv icr db h
    unfold originalVersionsWriteStep
    rcases h with h | h
    · rw [if_neg]
      rintro ⟨h1, _⟩
      rw [h] at h1
      exact Bool.noConfusion h1
    · rw [if_neg]
      rintro ⟨_, h2⟩
      rw [h] at h2
      exact Bool.noConfusion h2
  · intro pw iwc icv icr db
    exact ⟨rfl, rfl, rfl, rfl⟩

theorem claim_C3_witness :
    originalVersionsWriteStep true true "14.11" "sha256:aaa" exCharmVersion "rev"
        exAppDatabagEmpty = exAppDatabagEmpty ∧
    (originalVersionsWriteStep false true "14.11" "sha256:aaa" exCharmVersion "rev"
        exAppDatabagEmpty).originalCharmVersion = some exCharmVersion.raw :=
  ⟨claim_C3.1 true true "14.11" "sha256:aaa" exCharmVersion "rev" exAppDatabagEmpty
      (Or.inl rfl),
    (claim_C3.2 "14.11" "sha256:aaa" exCharmVersion "rev" exAppDatabagEmpty).2.2.1⟩

lemma findNextUnitGo_spec (appRev : String) (l : List KUnit) :
    ∀ i : Nat, (∃ u ∈ l, u.controllerRevision ≠ appRev) →
    ∃ w, l.get? (l.findIdx fun u => decide (u.controllerRevision ≠ appRev)) = some w ∧
      findNextUnitGo appRev i l =
        some (i + l.findIdx (fun u => decide (u.controllerRevision ≠ appRev)), w) := by
  induction l with
  | nil =>
    intro i h
    simp at h
  | cons u t ih =>
    intro i h
    by_cases hu : u.controllerRevision = appRev
    · have ht : ∃ w ∈ t, w.controllerRevision ≠ appRev := by
        rcases h with ⟨w, hw, hwne⟩
        rcases List.mem_cons.mp hw with rfl | hw2
        · exact absurd hu hwne
        · exact ⟨w, hw2, hwne⟩
      cases t with
      | nil => simp at ht
      | cons v rest =>
        obtain ⟨w, hget, hgo⟩ := ih (i + 1) ht
        refine ⟨w, ?_, ?_⟩
        · simpa [List.findIdx_cons, hu] using hget
        · have hstep : findNextUnitGo appRev i (u :: v :: rest) =
              findNextUnitGo appRev (i + 1) (v :: rest) := by
            simp [findNextUnitGo, hu]
          have hidx : List.findIdx (fun u => decide (u.controllerRevision ≠ appRev))
              (u :: v :: rest) =
              List.findIdx (fun u => decide (u.controllerRevision ≠ appRev)) (v :: rest) + 1 := by
            simp [List.findIdx_cons, hu]
          rw [hstep, hgo, hidx]
          have harith : i + 1 + List.findIdx
              (fun u => decide (u.controllerRevision ≠ appRev)) (v :: rest) =
              i + (List.findIdx (fun u => decide (u.controllerRevision ≠ appRev)) (v :: rest) + 1) := by
            omega
          rw [harith]
    · refine ⟨u, ?_, ?_⟩
      · simp [List.findIdx_cons, hu]
      · cases t with
        | nil => simp [findNextUnitGo, List.findIdx_cons, hu]
        | cons v rest => simp [findNextUnitGo, List.findIdx_cons, hu]

/-- Claim C1: `_set_partition_and_app_status` never raises the StatefulSet
partition — every value it passes to `_set_partition` is at most the current
partition; and the stop-event guard in the controller entry path (the only
other `_set_partition` call site) writes only this unit's own number, and only
when the `kubernetes_unit_tearing_down` marker is absent and the current
partition is below that number. -/
theorem claim_C1 :
    (∀ (s : PartitionState) (p : Nat), writtenPartition s = some p → p ≤ s.partition) ∧
    (∀ (isStopEvent tearingDownFileExists : Bool) (partition unitNumber p : Nat),
      stopEventGuardWrite isStopEvent tearingDownFileExists partition unitNumber = some p →
      p = unitNumber ∧ tearingDownFileExists = false ∧ partition < unitNumber) := by
  constructor
  · intro s p h
    unfold writtenPartition setPartitionAndAppStatus at h
    by_cases hL : s.isLeader = false
    · rw [if_pos hL] at h
      simp at h
    · rw [if_neg hL] at h
      by_cases hIP : s.inProgress = false
      · simp only [if_pos hIP, Option.some_bind] at h
        simp at h
        omega
      · simp only [if_neg hIP] at h
        cases hu : s.units with
        | nil =>
          rw [hu] at h
          simp at h
        | cons u0 rest =>
          rw [hu] at h
          dsimp only at h
          cases hf : findNextUnit (u0 :: rest) s.appControllerRevision with
          | none =>
            rw [hf] at h
            simp at h
          | some pr =>
            obtain ⟨idx, nxt⟩ := pr
            rw [hf] at h
            simp only [Option.some_bind] at h
            rw [Option.ite_none_right_eq_some] at h
            obtain ⟨hlt, h2⟩ := h
            injection h2 with h3
            subst h3
            exact Nat.le_of_lt hlt
  · intro st td part n p h
    unfold stopEventGuardWrite at h
    by_cases hc : st = true ∧ td = false ∧ part < n
    · rw [if_pos hc] at h
      injection h with h2
      exact ⟨h2.symm, hc.2.1, hc.2.2⟩
    · rw [if_neg hc] at h
      exact Option.noConfusion h

theorem claim_C1_witness :
    (0 ≤ exPartitionStateIdle.partition) ∧
      ((1 : Nat) = 1 ∧ false = false ∧ (0 : Nat) < 1) :=
  ⟨claim_C1.1 exPartitionStateIdle 0 rfl,
    claim_C1.2 true false 0 1 1 rfl⟩

lemma mem_appendIfAbsent (l : List String) (r : String) : r ∈ appendIfAbsent l r := by
  unfold appendIfAbsent
  split
  · assumption
  · simp

/-- Claim C4: on the first unit to refresh, with a refresh in progress and not
yet marked started, when the installed charm version and workload container
digest both equal `OriginalVersions` (a rollback), `_start_refresh` marks the
refresh started — local marker plus databag hash — without invoking the
workload-container check, the compatibility predicate, or the pre-refresh
hook. -/
theorem claim_C4 (s : StartRefreshState) (u0 : KUnit) (rest : List KUnit)
    (ov : OriginalVersions)
    (hu : s.units = u0 :: rest) (hip : s.inProgress = true)
    (hfirst : s.thisUnitNumber = u0.number)
    (hns : anyRefreshStartedContains s.units s.relation s.appControllerRevision = false)
    (hov : s.originalVersions = some ov)
    (hch : ov.charm.raw = s.installedCharmVersion.raw)
    (hwc : ov.workloadContainer = s.installedWorkloadContainerVersion) :
    ∃ r, startRefresh s = some r ∧ r.refreshStarted = true ∧ r.markerTouched = true ∧
      s.unitControllerRevision ∈ r.ownHashes ∧
      r.ranWorkloadContainerCheck = false ∧ r.ranCompatibilityCheck = false ∧
      r.ranPreRefreshChecks = false := by
  have hns2 := hns
  rw [hu] at hns2
  have hred : startRefresh s = some
      { refreshStarted := true, markerTouched := true
        ownHashes := appendIfAbsent (refreshStartedHashesOf s.relation s.thisUnitNumber)
          s.unitControllerRevision
        unitStatusHigherPriority := Option.none
        ranWorkloadContainerCheck := false, ranCompatibilityCheck := false
        ranPreRefreshChecks := false
        forceFail := (validateForce s.forceEvent s.thisUnitNumber u0.number s.inProgress).2 <|>
          ((validateForce s.forceEvent s.thisUnitNumber u0.number s.inProgress).1.map
            fun _ => "refresh already started")
        forceResult := Option.none } := by
    unfold startRefresh
    rw [hu]
    dsimp only
    rw [hip, hfirst, hns2, hov]
    simp [hch, hwc]
  exact ⟨_, hred, rfl, rfl, mem_appendIfAbsent _ _, rfl, rfl, rfl⟩

lemma any_eq_find_isSome {a : Type} (p : a → Bool) (l : List a) :
    l.any p = (l.find? p).isSome := by
  induction l with
  | nil => rfl
  | cons x t ih =>
    cases hx : p x with
    | true =>
      rw [List.find?_cons_of_pos _ hx]
      simp [List.any_cons, hx]
    | false =>
      rw [List.find?_cons_of_neg _ (by simp [hx])]
      simp [List.any_cons, hx, ih]

lemma firstUnitNotAllowingNext_any (l : List KUnit) (relation : Relation) (appRev : String) :
    (l.any fun u => decide (((relation u.number).bind UnitDatabag.nextUnitAllowedHash)
      ≠ some appRev)) = (firstUnitNotAllowingNext l relation appRev).isSome := by
  unfold firstUnitNotAllowingNext
  exact any_eq_find_isSome _ _

lemma allowDecision_eq_spec (handleAction : Bool) (action : Option ResumeAction)
    (refreshStarted : Bool) (units : List KUnit) (relation : Relation) (appRev : String)
    (pauseAfter : PauseAfter) (u0 nextUnit : KUnit) (action1 : Option ResumeAction)
    (ha1 : action1 = if (handleAction && action.isSome &&
        decide (pauseAfter = PauseAfter.NONE) &&
        (match action with | some a => a.checkHealth | Option.none => false)) = true
      then Option.none else action) :
    (allowNextUnitDecision handleAction action1 refreshStarted units relation appRev
        pauseAfter u0 nextUnit (specNextUnitIndex units appRev)).1 =
      specAllowNextUnit action refreshStarted units relation appRev pauseAfter := by
  rcases action with _ | a
  · have ha1e : action1 = Option.none := by
      rw [ha1]
      simp
    subst ha1e
    cases refreshStarted with
    | false => simp [allowNextUnitDecision, specAllowNextUnit]
    | true =>
      cases hfind : firstUnitNotAllowingNext (units.take (specNextUnitIndex units appRev))
          relation appRev with
      | some u =>
        have hanyT : ((units.take (specNextUnitIndex units appRev)).any
            fun u => decide (((relation u.number).bind UnitDatabag.nextUnitAllowedHash)
              ≠ some appRev)) = true := by
          rw [firstUnitNotAllowingNext_any, hfind]
          rfl
        unfold allowNextUnitDecision specAllowNextUnit
        rw [hfind, hanyT]
        simp
      | none =>
        have hanyF : ((units.take (specNextUnitIndex units appRev)).any
            fun u => decide (((relation u.number).bind UnitDatabag.nextUnitAllowedHash)
              ≠ some appRev)) = false := by
          rw [firstUnitNotAllowingNext_any, hfind]
          rfl
        unfold allowNextUnitDecision specAllowNextUnit
        rw [hfind, hanyF]
        cases pauseAfter <;>
          by_cases hd : 2 ≤ specNextUnitIndex units appRev <;> simp [hd]
  · cases hch : a.checkHealth with
    | false =>
      have ha1e : action1 = some a := by
        rw [ha1]
        simp [hch]
      subst ha1e
      simp [allowNextUnitDecision, specAllowNextUnit, hch]
    | true =>
      by_cases hpn : pauseAfter = PauseAfter.NONE
      · subst hpn
        have hcase : action1 = Option.none ∨ action1 = some a := by
          rw [ha1]
          cases handleAction <;> simp [hch]
        have hgoal : ∀ action2 : Option ResumeAction,
            action2 = Option.none ∨ action2 = some a →
            (allowNextUnitDecision handleAction action2 refreshStarted units relation appRev
              PauseAfter.NONE u0 nextUnit (specNextUnitIndex units appRev)).1 =
            specAllowNextUnit (some a) refreshStarted units relation appRev
              PauseAfter.NONE := by
          intro action2 h2
          cases refreshStarted with
          | false =>
            rcases h2 with h2 | h2 <;> subst h2 <;>
              simp [allowNextUnitDecision, specAllowNextUnit, hch]
          | true =>
            cases hfind : firstUnitNotAllowingNext
                (units.take (specNextUnitIndex units appRev)) relation appRev with
            | some u =>
              have hanyT : ((units.take (specNextUnitIndex units appRev)).any
                  fun u => decide (((relation u.number).bind UnitDatabag.nextUnitAllowedHash)
                    ≠ some appRev)) = true := by
                rw [firstUnitNotAllowingNext_any, hfind]
                rfl
              rcases h2 with h2 | h2 <;> subst h2 <;>
                · unfold allowNextUnitDecision specAllowNextUnit
                  rw [hfind, hanyT]
                  simp [hch]
            | none =>
              have hanyF : ((units.take (specNextUnitIndex units appRev)).any
                  fun u => decide (((relation u.number).bind UnitDatabag.nextUnitAllowedHash)
                    ≠ some appRev)) = false := by
                rw [firstUnitNotAllowingNext_any, hfind]
                rfl
              rcases h2 with h2 | h2 <;> subst h2 <;>
                · unfold allowNextUnitDecision specAllowNextUnit
                  rw [hfind, hanyF]
                  simp [hch]
        exact hgoal action1 hcase
      · have ha1e : action1 = some a := by
          rw [ha1]
          simp [hpn]
        subst ha1e
        cases refreshStarted with
        | false => simp [allowNextUnitDecision, specAllowNextUnit, hch]
        | true =>
          cases hfind : firstUnitNotAllowingNext
              (units.take (specNextUnitIndex units appRev)) relation appRev with
          | some u =>
            have hanyT : ((units.take (specNextUnitIndex units appRev)).any
                fun u => decide (((relation u.number).bind UnitDatabag.nextUnitAllowedHash)
                  ≠ some appRev)) = true := by
              rw [firstUnitNotAllowingNext_any, hfind]
              rfl
            unfold allowNextUnitDecision specAllowNextUnit
            rw [hfind, hanyT]
            simp [hch]
          | none =>
            have hanyF : ((units.take (specNextUnitIndex units appRev)).any
                fun u => decide (((relation u.number).bind UnitDatabag.nextUnitAllowedHash)
                  ≠ some appRev)) = false := by
              rw [firstUnitNotAllowingNext_any, hfind]
              rfl
            unfold allowNextUnitDecision specAllowNextUnit
            rw [hfind, hanyF]
            simp [hch, hpn]

/-- Claim C2: for every in-progress leader invocation,
`_set_partition_and_app_status` computes `allow_next_unit_to_refresh` exactly
per the spec's decision table, the target partition is
`next_unit_to_refresh`'s ordinal when allowed and otherwise the ordinal of the
unit at the index immediately above `next_unit_to_refresh` (index floored at
0), and on the health-deny row a still-pending `resume-refresh` action is
failed naming the unhealthy unit. -/
theorem claim_C2 (s : PartitionState)
    (hL : s.isLeader = true) (hIP : s.inProgress = true)
    (hC : computeInProgress s.units s.appControllerRevision = true) :
    ∃ o, setPartitionAndAppStatus s = some o ∧
      o.allowNext = specAllowNextUnit s.action s.refreshStarted s.units s.relation
        s.appControllerRevision s.pauseAfter ∧
      some o.targetPartition =
        specTargetPartition o.allowNext s.units s.appControllerRevision ∧
      (∀ u : KUnit,
        s.handleAction = true → s.refreshStarted = true →
        (match s.action with | some a => a.checkHealth | Option.none => false) = true →
        s.pauseAfter ≠ PauseAfter.NONE →
        firstUnitNotAllowingNext
          (s.units.take (specNextUnitIndex s.units s.appControllerRevision))
          s.relation s.appControllerRevision = some u →
        o.actionFail = some ("Unit " ++ toString u.number ++
          " is unhealthy. Refresh will not resume.")) := by
  cases hu : s.units with
  | nil =>
    rw [hu] at hC
    simp [computeInProgress] at hC
  | cons u0 rest =>
    have hex : ∃ u ∈ u0 :: rest, u.controllerRevision ≠ s.appControllerRevision := by
      rw [hu] at hC
      simpa [computeInProgress, List.any_eq_true] using hC
    obtain ⟨w, hget, hgo⟩ :=
      findNextUnitGo_spec s.appControllerRevision (u0 :: rest) 0 hex
    rw [Nat.zero_add] at hgo
    have hfind : findNextUnit (u0 :: rest) s.appControllerRevision =
        some ((u0 :: rest).findIdx
          (fun u => decide (u.controllerRevision ≠ s.appControllerRevision)), w) := by
      unfold findNextUnit
      exact hgo
    unfold setPartitionAndAppStatus
    rw [if_neg (by simp [hL]), if_neg (by simp [hIP]), hu]
    dsimp only
    rw [hfind]
    dsimp only
    refine ⟨_, rfl, ?_, ?_, ?_⟩
    · exact allowDecision_eq_spec s.handleAction s.action s.refreshStarted (u0 :: rest)
        s.relation s.appControllerRevision s.pauseAfter u0 w _ rfl
    · cases hal : (allowNextUnitDecision s.handleAction
          (if (s.handleAction && s.action.isSome &&
              decide (s.pauseAfter = PauseAfter.NONE) &&
              (match s.action with | some a => a.checkHealth | Option.none => false)) = true
            then Option.none else s.action)
          s.refreshStarted (u0 :: rest) s.relation s.appControllerRevision s.pauseAfter
          u0 w ((u0 :: rest).findIdx
            (fun u => decide (u.controllerRevision ≠ s.appControllerRevision)))).1 with
      | true =>
        have hget2 := hget
        simp only [List.get?_eq_getElem?, ne_eq, decide_not] at hget2
        simp [specTargetPartition, specNextUnitIndex, hal, hget2]
      | false =>
        obtain ⟨hlt, -⟩ := List.get?_eq_some.mp hget
        have hlt2 : (u0 :: rest).findIdx
            (fun u => decide (u.controllerRevision ≠ s.appControllerRevision)) - 1 <
            (u0 :: rest).length := by omega
        have hget2 := List.get?_eq_get hlt2
        simp only [List.get?_eq_getElem?, ne_eq, decide_not] at hget2
        simp [specTargetPartition, specNextUnitIndex, hal, hget2]
    · intro u hHA hRS hCH hPN hFind
      rcases hsa : s.action with _ | a
      · rw [hsa] at hCH
        exact Bool.noConfusion hCH
      · rw [hsa] at hCH
        have hCH2 : a.checkHealth = true := hCH
        have hdec : decide (s.pauseAfter = PauseAfter.NONE) = false := by
          simp [hPN]
        have hFind3 := hFind
        unfold specNextUnitIndex at hFind3
        simp only [ne_eq, decide_not] at hFind3
        simp [allowNextUnitDecision, hsa, hHA, hRS, hCH2, hdec, hFind3]

theorem claim_C2_witness :
    ∃ o, setPartitionAndAppStatus exPartitionStateBusy = some o ∧
      o.allowNext = specAllowNextUnit exPartitionStateBusy.action
        exPartitionStateBusy.refreshStarted exPartitionStateBusy.units
        exPartitionStateBusy.relation exPartitionStateBusy.appControllerRevision
        exPartitionStateBusy.pauseAfter ∧
      some o.targetPartition = specTargetPartition o.allowNext
        exPartitionStateBusy.units exPartitionStateBusy.appControllerRevision ∧
      (∀ u : KUnit,
        exPartitionStateBusy.handleAction = true →
        exPartitionStateBusy.refreshStarted = true →
        (match exPartitionStateBusy.action with
          | some a => a.checkHealth | Option.none => false) = true →
        exPartitionStateBusy.pauseAfter ≠ PauseAfter.NONE →
        firstUnitNotAllowingNext
          (exPartitionStateBusy.units.take (specNextUnitIndex exPartitionStateBusy.units
            exPartitionStateBusy.appControllerRevision))
          exPartitionStateBusy.relation exPartitionStateBusy.appControllerRevision = some u →
        o.actionFail = some ("Unit " ++ toString u.number ++
          " is unhealthy. Refresh will not resume.")) :=
  claim_C2 exPartitionStateBusy rfl rfl (by decide)

theorem claim_C4_witness :
    ∃ r, startRefresh exStartRollback = some r ∧ r.refreshStarted = true ∧
      r.markerTouched = true ∧
      exStartRollback.unitControllerRevision ∈ r.ownHashes ∧
      r.ranWorkloadContainerCheck = false ∧ r.ranCompatibilityCheck = false ∧
      r.ranPreRefreshChecks = false :=
  claim_C4 exStartRollback { number := 0, controllerRevision := "B" } []
    { workload := "14.11", workloadContainer := "sha256:aaa", charm := exCharmVersion
      charmRevision := "ch:amd64/jammy/postgresql-k8s-381" }
    rfl rfl rfl rfl rfl rfl rfl

/-- Claim C5: on the normal (non-rollback) first-unit path of
`_start_refresh`, the three gates run in order — workload-container digest,
compatibility, pre-refresh checks — each skipped exactly when a validated
`force-refresh-start` action carries the matching parameter `false`; a gate
that runs and fails leaves a blocked unit status, no later gate runs, and the
refresh is not marked started; the local marker and the databag hash entry
are added exactly when every gate that ran succeeded. -/
theorem claim_C5 (s : StartRefreshState) (u0 : KUnit) (rest : List KUnit)
    (ov : OriginalVersions)
    (hu : s.units = u0 :: rest) (hip : s.inProgress = true)
    (hfirst : s.thisUnitNumber = u0.number)
    (hns : anyRefreshStartedContains s.units s.relation s.appControllerRevision = false)
    (hov : s.originalVersions = some ov)
    (hnr : ¬(ov.charm.raw = s.installedCharmVersion.raw ∧
      ov.workloadContainer = s.installedWorkloadContainerVersion)) :
    ∃ r, startRefresh s = some r ∧
      (let F := (validateForce s.forceEvent s.thisUnitNumber u0.number s.inProgress).1
       let skip1 := skipFlag F ForceParams.checkWorkloadContainer
       let pass1 := decide (s.installedWorkloadContainerVersion =
         s.pinnedWorkloadContainerVersion)
       let skip2 := skipFlag F ForceParams.checkCompatibility
       let pass2 := s.isCompatible ov.charm s.installedCharmVersion ov.workload
         s.pinnedWorkloadVersion
       let skip3 := skipFlag F ForceParams.runPreRefreshChecks
       let pass3 := s.precheckFailure.isNone
       let success := (skip1 || pass1) && (skip2 || pass2) && (skip3 || pass3)
       r.ranWorkloadContainerCheck = !skip1 ∧
       r.ranCompatibilityCheck = ((skip1 || pass1) && !skip2) ∧
       r.ranPreRefreshChecks = ((skip1 || pass1) && (skip2 || pass2) && !skip3) ∧
       r.refreshStarted = success ∧
       r.markerTouched = success ∧
       r.ownHashes = (if success = true then
           appendIfAbsent (refreshStartedHashesOf s.relation s.thisUnitNumber)
             s.unitControllerRevision
         else refreshStartedHashesOf s.relation s.thisUnitNumber) ∧
       (success = false → ∃ m, r.unitStatusHigherPriority = some (Status.blocked m)) ∧
       (success = true → r.unitStatusHigherPriority = Option.none)) := by
  have hns2 := hns
  rw [hu] at hns2
  have hred : startRefresh s = some (runChecks s
      (validateForce s.forceEvent s.thisUnitNumber u0.number s.inProgress).1 ov
      (validateForce s.forceEvent s.thisUnitNumber u0.number s.inProgress).2
      (refreshStartedHashesOf s.relation s.thisUnitNumber)) := by
    unfold startRefresh
    rw [hu]
    dsimp only
    rw [hip, hfirst, hns2, hov]
    simp [hnr]
  refine ⟨_, hred, ?_⟩
  dsimp only
  rcases hF : (validateForce s.forceEvent s.thisUnitNumber u0.number s.inProgress).1
      with _ | p
  · by_cases h1 : s.installedWorkloadContainerVersion = s.pinnedWorkloadContainerVersion <;>
      cases h2 : s.isCompatible ov.charm s.installedCharmVersion ov.workload
        s.pinnedWorkloadVersion <;>
      cases h3 : s.precheckFailure <;>
      simp [runChecks, skipFlag, h1, h2, h3]
  · rcases p with ⟨cw, cc, rp⟩
    cases cw <;> cases cc <;> cases rp <;>
      (by_cases h1 : s.installedWorkloadContainerVersion =
        s.pinnedWorkloadContainerVersion <;>
      cases h2 : s.isCompatible ov.charm s.installedCharmVersion ov.workload
        s.pinnedWorkloadVersion <;>
      cases h3 : s.precheckFailure <;>
      simp [runChecks, skipFlag, h1, h2, h3])

theorem claim_C5_witness :
    ∃ r, startRefresh exStartNormal = some r ∧
      (let F := (validateForce exStartNormal.forceEvent exStartNormal.thisUnitNumber
        0 exStartNormal.inProgress).1
       let skip1 := skipFlag F ForceParams.checkWorkloadContainer
       let pass1 := decide (exStartNormal.installedWorkloadContainerVersion =
         exStartNormal.pinnedWorkloadContainerVersion)
       let skip2 := skipFlag F ForceParams.checkCompatibility
       let pass2 := exStartNormal.isCompatible exCharmVersion
         exStartNormal.installedCharmVersion "14.10"
         exStartNormal.pinnedWorkloadVersion
       let skip3 := skipFlag F ForceParams.runPreRefreshChecks
       let pass3 := exStartNormal.precheckFailure.isNone
       let success := (skip1 || pass1) && (skip2 || pass2) && (skip3 || pass3)
       r.ranWorkloadContainerCheck = !skip1 ∧
       r.ranCompatibilityCheck = ((skip1 || pass1) && !skip2) ∧
       r.ranPreRefreshChecks = ((skip1 || pass1) && (skip2 || pass2) && !skip3) ∧
       r.refreshStarted = success ∧
       r.markerTouched = success ∧
       r.ownHashes = (if success = true then
           appendIfAbsent (refreshStartedHashesOf exStartNormal.relation
             exStartNormal.thisUnitNumber) exStartNormal.unitControllerRevision
         else refreshStartedHashesOf exStartNormal.relation exStartNormal.thisUnitNumber) ∧
       (success = false → ∃ m, r.unitStatusHigherPriority = some (Status.blocked m)) ∧
       (success = true → r.unitStatusHigherPriority = Option.none)) :=
  claim_C5 exStartNormal { number := 0, controllerRevision := "B" } []
    { workload := "14.10", workloadContainer := "sha256:old", charm := exCharmVersion
      charmRevision := "ch:amd64/jammy/postgresql-k8s-381" }
    rfl rfl rfl rfl rfl (by decide)

end CharmRefresh
